import Mathlib

/-!
Shallow embedding of `scripts/django_setup_example.py`: a client script
that checks connectivity to a debt-collection API, bulk-provisions two
fixed sample users, sends one test webhook event, and writes two static
Django code templates to disk.

Network I/O is modelled by passing the outcome of each HTTP call (a
decoded response, or a raised `requests.RequestException`) explicitly to
the function that performs the call.  A Python exception that escapes a
function is modelled with `Except`; printed lines and issued requests are
returned as data.
-/

namespace DjangoSetup

/-- Python exceptions that can escape the script's functions.  Only
`KeyError` — raised by `result['k']` subscripts on decoded JSON — matters
here: the verbs catch exactly `requests.RequestException`. -/
inductive PyExn where
  | keyError (key : String)
  deriving DecidableEq

/-- Decoded JSON values, as produced by `response.json()`. -/
inductive Json where
  | null
  | bool (b : Bool)
  | num (n : Int)
  | str (s : String)
  | arr (elems : List Json)
  | obj (fields : List (String × Json))

/-- Key lookup on a decoded JSON object (first binding wins); `none` for a
missing key and for a non-object value. -/
def Json.get? : Json → String → Option Json
  | .obj fields, k => (fields.find? (fun kv => kv.1 == k)).map (fun kv => kv.2)
  | _, _ => none

/-- Python `result.get(k)`: the value, or `None` when the key is absent. -/
def Json.getd (j : Json) (k : String) : Json :=
  (j.get? k).getD Json.null

/-- Python truthiness of a decoded JSON value (`None`, `False`, `0`, `""`,
`[]` and `{}` are falsy). -/
def Json.truthy : Json → Bool
  | .null => false
  | .bool b => b
  | .num n => n != 0
  | .str s => s != ""
  | .arr elems => !elems.isEmpty
  | .obj fields => !fields.isEmpty

mutual

/-- Python `repr` of a decoded JSON value, as rendered inside containers. -/
def Json.pyRepr : Json → String
  | .null => "None"
  | .bool true => "True"
  | .bool false => "False"
  | .num n => toString n
  | .str s => "\x27" ++ s ++ "\x27"
  | .arr elems => "[" ++ Json.pyReprElems elems ++ "]"
  | .obj fields => "\x7b" ++ Json.pyReprFields fields ++ "\x7d"

/-- Comma-separated `repr`s of array elements. -/
def Json.pyReprElems : List Json → String
  | [] => ""
  | [j] => Json.pyRepr j
  | j :: rest => Json.pyRepr j ++ ", " ++ Json.pyReprElems rest

/-- Comma-separated `'key': repr(value)` renderings of object fields. -/
def Json.pyReprFields : List (String × Json) → String
  | [] => ""
  | [kv] => "\x27" ++ kv.1 ++ "\x27: " ++ Json.pyRepr kv.2
  | kv :: rest => "\x27" ++ kv.1 ++ "\x27: " ++ Json.pyRepr kv.2 ++ ", " ++ Json.pyReprFields rest

end

/-- Python `str()` of a decoded JSON value as an f-string interpolates it:
strings are rendered bare, containers as their `repr`. -/
def Json.pyStr : Json → String
  | .str s => s
  | j => Json.pyRepr j

/-- Python truthiness of an optional string: `None` and `""` are falsy. -/
def pyTruthy : Option String → Bool
  | none => false
  | some s => s != ""

/-- Python `a or b` on optional strings (used for
`api_key or os.getenv('PROVISIONING_API_KEY')`). -/
def pyOr (a b : Option String) : Option String :=
  if pyTruthy a then a else b

/-- How an f-string renders an optional string: `None` becomes the literal
text `None`. -/
def pyStrOpt : Option String → String
  | none => "None"
  | some s => s

/-- Python `s * n` string repetition (used for `"=" * 55`). -/
def pyRepeat (s : String) (n : Nat) : String :=
  String.join (List.replicate n s)

/-- A user payload as sent to the provisioning API. -/
structure UserRecord where
  keycloak_id : String
  email : String
  first_name : String
  last_name : String
  engagemx_client_id : String
  is_active : Bool

/-- The JSON object serialized for one user record (field order as written
in the source dict literals). -/
def UserRecord.toJson (u : UserRecord) : Json :=
  Json.obj
    [("keycloak_id", Json.str u.keycloak_id),
     ("email", Json.str u.email),
     ("first_name", Json.str u.first_name),
     ("last_name", Json.str u.last_name),
     ("engagemx_client_id", Json.str u.engagemx_client_id),
     ("is_active", Json.bool u.is_active)]

/-- The fixed `sample_users` list hard-coded in `provision_sample_users`. -/
def sample_users : List UserRecord :=
  [{ keycloak_id := "test-user-1-uuid"
     email := "admin@medical-group-1.com"
     first_name := "Dr. John"
     last_name := "Doe"
     engagemx_client_id := "medical_group_1"
     is_active := true },
   { keycloak_id := "test-user-2-uuid"
     email := "manager@hospital-2.com"
     first_name := "Jane"
     last_name := "Smith"
     engagemx_client_id := "hospital_2"
     is_active := true }]

/-- The webhook event envelope built by `send_webhook_test`. -/
structure WebhookEvent where
  event_type : String
  event_id : String
  timestamp : String
  source : String
  data : UserRecord
  version : String

/-- The `test_event` dict literal of `send_webhook_test`.  The dict is
evaluated top to bottom, so `now1` is the `datetime.now().isoformat()`
read embedded in `event_id` and `now2` the later read stored in
`timestamp`. -/
def build_test_event (now1 now2 : String) : WebhookEvent :=
  { event_type := "user.created"
    event_id := "test-" ++ now1
    timestamp := now2
    source := "django-admin-test"
    data :=
      { keycloak_id := "webhook-test-user-uuid"
        email := "webhook-test@example.com"
        first_name := "Webhook"
        last_name := "Test"
        engagemx_client_id := "test_client"
        is_active := true }
    version := "1.0.0" }

/-- The JSON object serialized for the webhook event. -/
def WebhookEvent.toJson (e : WebhookEvent) : Json :=
  Json.obj
    [("event_type", Json.str e.event_type),
     ("event_id", Json.str e.event_id),
     ("timestamp", Json.str e.timestamp),
     ("source", Json.str e.source),
     ("data", e.data.toJson),
     ("version", Json.str e.version)]

/-- The client object: configured base URL, resolved key, and the header
dict prepared by the constructor. -/
structure DebtCollectionSetup where
  api_base_url : String
  api_key : Option String
  headers : List (String × String)

/-- The default `api_base_url` constructor argument. -/
def defaultBaseUrl : String := "http://localhost:8080/api"

/-- `DebtCollectionSetup.__init__`: resolves the key as
`api_key or os.getenv('PROVISIONING_API_KEY')` (`env` is that variable's
value, `none` when unset) and builds the `Authorization` /
`Content-Type` headers; a missing key yields the literal token
`Bearer None`. -/
def DebtCollectionSetup.init (api_base_url : String) (api_key : Option String) (env : Option String) : DebtCollectionSetup :=
  let key := pyOr api_key env
  { api_base_url := api_base_url
    api_key := key
    headers :=
      [("Authorization", "Bearer " ++ pyStrOpt key),
       ("Content-Type", "application/json")] }

/-- Outcome of one `requests.get` / `requests.post` call as the script
sees it: a raised `requests.RequestException` (timeout, connection
refused, DNS failure, ...) carrying its message, or a response with a
status code, its JSON-decoded body and its raw text. -/
inductive HttpOutcome where
  | requestException (msg : String)
  | response (status : Nat) (body : Json) (text : String)

/-- The request a verb hands to `requests`: method, URL, optional JSON
payload (the `json=` argument), headers, and timeout in seconds. -/
structure HttpRequest where
  method : String
  url : String
  payload : Option Json
  headers : List (String × String)
  timeout : Nat

/-- `test_connection`: GET `{base}/webhooks/status` with a 10s timeout.
Returns the request it issues together with the printed lines and its
boolean result; on 200 it prints the decoded body and returns `True`, on
any other status or a `RequestException` it returns `False`. -/
def test_connection (s : DebtCollectionSetup) (o : HttpOutcome) : HttpRequest × (List String × Bool) :=
  ({ method := "GET"
     url := s.api_base_url ++ "/webhooks/status"
     payload := none
     headers := s.headers
     timeout := 10 },
   match o with
   | .requestException m => (["❌ Connection error: " ++ m], false)
   | .response st body _ =>
     if st = 200 then
       (["✅ Successfully connected to debt collection API",
         "Webhook system status: " ++ body.pyStr], true)
     else
       (["❌ Connection failed with status: " ++ toString st], false))

/-- `provision_sample_users`: POST the fixed two-record `sample_users`
list to `{base}/provisioning/users/bulk` with a 30s timeout.  On 200 it
subscripts `result['success_count']` (an uncaught `KeyError` when the
field is absent), warns with `result['error_count']` when
`result.get('errors')` is truthy (again an uncaught `KeyError` when
absent), and returns `True`; on any other status it prints the status and
raw text and returns `False`; a `RequestException` returns `False`. -/
def provision_sample_users (s : DebtCollectionSetup) (o : HttpOutcome) : HttpRequest × Except PyExn (List String × Bool) :=
  ({ method := "POST"
     url := s.api_base_url ++ "/provisioning/users/bulk"
     payload := some (Json.arr (sample_users.map UserRecord.toJson))
     headers := s.headers
     timeout := 30 },
   match o with
   | .requestException m => .ok (["❌ Provisioning error: " ++ m], false)
   | .response st body t =>
     if st = 200 then
       match body.get? "success_count" with
       | none => .error (.keyError "success_count")
       | some sc =>
         let okLine := "✅ Successfully provisioned " ++ sc.pyStr ++ " sample users"
         if (body.getd "errors").truthy then
           match body.get? "error_count" with
           | none => .error (.keyError "error_count")
           | some ec => .ok ([okLine, "⚠️  " ++ ec.pyStr ++ " errors occurred"], true)
         else
           .ok ([okLine], true)
     else
       .ok (["❌ Provisioning failed with status: " ++ toString st, t], false))

/-- `send_webhook_test`: build the test event from the two clock reads and
POST it to `{base}/webhooks/events` with a 30s timeout.  On 200 it echoes
`result['event_id']` (an uncaught `KeyError` when absent) and returns
`True`; any other status or a `RequestException` returns `False`. -/
def send_webhook_test (s : DebtCollectionSetup) (now1 now2 : String) (o : HttpOutcome) : HttpRequest × Except PyExn (List String × Bool) :=
  ({ method := "POST"
     url := s.api_base_url ++ "/webhooks/events"
     payload := some (build_test_event now1 now2).toJson
     headers := s.headers
     timeout := 30 },
   match o with
   | .requestException m => .ok (["❌ Webhook test error: " ++ m], false)
   | .response st body _ =>
     if st = 200 then
       match body.get? "event_id" with
       | none => .error (.keyError "event_id")
       | some eid => .ok (["✅ Webhook test successful", "Event ID: " ++ eid.pyStr], true)
     else
       .ok (["❌ Webhook test failed with status: " ++ toString st], false))

/-- The exact string value returned by `generate_django_models` (Python
escape sequences in the source resolved to their character values). -/
def djangoModelsTemplate : String :=
  "\n# Add this to your Django models.py\n\nfrom django.db import models\nfrom django.contrib.auth.models import AbstractUser\n\nclass Client(models.Model):\n    \"\"\"Represents a medical client/organization\"\"\"\n    client_id = models.CharField(max_length=255, unique=True, help_text=\"Unique client identifier for debt collection system\")\n    name = models.CharField(max_length=255)\n    contact_email = models.EmailField(blank=True)\n    is_active = models.BooleanField(default=True)\n    created_at = models.DateTimeField(auto_now_add=True)\n    updated_at = models.DateTimeField(auto_now=True)\n    \n    class Meta:\n        ordering = [\x27name\x27]\n    \n    def __str__(self):\n        return f\"\x7bself.name\x7d (\x7bself.client_id\x7d)\"\n\nclass User(AbstractUser):\n    \"\"\"Extended user model with client association\"\"\"\n    client = models.ForeignKey(\n        Client, \n        on_delete=models.CASCADE, \n        related_name=\x27users\x27,\n        help_text=\"Client this user belongs to\"\n    )\n    keycloak_id = models.CharField(\n        max_length=255, \n        unique=True, \n        null=True, \n        blank=True,\n        help_text=\"Keycloak user ID for authentication\"\n    )\n    is_provisioned_to_debt_collection = models.BooleanField(\n        default=False,\n        help_text=\"Whether user has been synced to debt collection system\"\n    )\n    provisioned_at = models.DateTimeField(null=True, blank=True)\n    \n    class Meta:\n        ordering = [\x27client__name\x27, \x27username\x27]\n    \n    def __str__(self):\n        return f\"\x7bself.username\x7d - \x7bself.client.name\x7d\"\n    \n    def get_debt_collection_data(self):\n        \"\"\"Get user data formatted for debt collection API\"\"\"\n        return \x7b\n            \x27keycloak_id\x27: self.keycloak_id,\n            \x27email\x27: self.email,\n            \x27first_name\x27: self.first_name,\n            \x27last_name\x27: self.last_name,\n            \x27engagemx_client_id\x27: self.client.client_id,\n            \x27is_active\x27: self.is_active\n        \x7d\n"

/-- The exact string value returned by `generate_django_admin`. -/
def djangoAdminTemplate : String :=
  "\n# Add this to your Django admin.py\n\nfrom django.contrib import admin\nfrom django.contrib import messages\nfrom django.utils import timezone\nfrom .models import User, Client\nfrom .services.debt_collection_service import DebtCollectionService\n\n@admin.register(Client)\nclass ClientAdmin(admin.ModelAdmin):\n    list_display = [\x27client_id\x27, \x27name\x27, \x27user_count\x27, \x27is_active\x27, \x27created_at\x27]\n    list_filter = [\x27is_active\x27, \x27created_at\x27]\n    search_fields = [\x27client_id\x27, \x27name\x27, \x27contact_email\x27]\n    readonly_fields = [\x27created_at\x27, \x27updated_at\x27]\n    actions = [\x27sync_all_users_to_debt_collection\x27]\n    \n    def user_count(self, obj):\n        return obj.users.count()\n    user_count.short_description = \x27Users\x27\n    \n    def sync_all_users_to_debt_collection(self, request, queryset):\n        service = DebtCollectionService()\n        total_synced = 0\n        \n        for client in queryset:\n            users = client.users.filter(is_active=True, keycloak_id__isnull=False)\n            if users.exists():\n                users_data = [user.get_debt_collection_data() for user in users]\n                \n                try:\n                    result = service.bulk_provision_users(users_data)\n                    success_count = result.get(\x27success_count\x27, 0)\n                    total_synced += success_count\n                    \n                    # Update provisioning status\n                    users.update(\n                        is_provisioned_to_debt_collection=True,\n                        provisioned_at=timezone.now()\n                    )\n                    \n                except Exception as e:\n                    messages.error(request, f\"Failed to sync users for \x7bclient.name\x7d: \x7be\x7d\")\n        \n        messages.success(request, f\"Successfully synced \x7btotal_synced\x7d users to debt collection system\")\n    \n    sync_all_users_to_debt_collection.short_description = \"Sync all users to debt collection\"\n\n@admin.register(User)\nclass UserAdmin(admin.ModelAdmin):\n    list_display = [\x27username\x27, \x27email\x27, \x27client\x27, \x27is_active\x27, \x27is_provisioned_to_debt_collection\x27, \x27provisioned_at\x27]\n    list_filter = [\x27is_active\x27, \x27is_provisioned_to_debt_collection\x27, \x27client\x27, \x27provisioned_at\x27]\n    search_fields = [\x27username\x27, \x27email\x27, \x27first_name\x27, \x27last_name\x27]\n    readonly_fields = [\x27provisioned_at\x27]\n    actions = [\x27provision_to_debt_collection\x27, \x27sync_updates_to_debt_collection\x27]\n    \n    fieldsets = (\n        (None, \x7b\n            \x27fields\x27: (\x27username\x27, \x27password\x27)\n        \x7d),\n        (\x27Personal info\x27, \x7b\n            \x27fields\x27: (\x27first_name\x27, \x27last_name\x27, \x27email\x27)\n        \x7d),\n        (\x27Client & Permissions\x27, \x7b\n            \x27fields\x27: (\x27client\x27, \x27is_active\x27, \x27is_staff\x27, \x27is_superuser\x27, \x27groups\x27, \x27user_permissions\x27)\n        \x7d),\n        (\x27Authentication\x27, \x7b\n            \x27fields\x27: (\x27keycloak_id\x27, \x27last_login\x27, \x27date_joined\x27)\n        \x7d),\n        (\x27Debt Collection Integration\x27, \x7b\n            \x27fields\x27: (\x27is_provisioned_to_debt_collection\x27, \x27provisioned_at\x27),\n            \x27classes\x27: (\x27collapse\x27,)\n        \x7d),\n    )\n    \n    def provision_to_debt_collection(self, request, queryset):\n        service = DebtCollectionService()\n        users_data = []\n        \n        for user in queryset:\n            if user.keycloak_id:\n                users_data.append(user.get_debt_collection_data())\n        \n        if users_data:\n            try:\n                result = service.bulk_provision_users(users_data)\n                success_count = result.get(\x27success_count\x27, 0)\n                \n                # Update provisioning status\n                queryset.filter(keycloak_id__isnull=False).update(\n                    is_provisioned_to_debt_collection=True,\n                    provisioned_at=timezone.now()\n                )\n                \n                messages.success(request, f\"Successfully provisioned \x7bsuccess_count\x7d users\")\n                \n                if result.get(\x27errors\x27):\n                    messages.warning(request, f\"\x7bresult[\x27error_count\x27]\x7d errors occurred\")\n                    \n            except Exception as e:\n                messages.error(request, f\"Failed to provision users: \x7be\x7d\")\n        else:\n            messages.warning(request, \"No users with Keycloak IDs found\")\n    \n    provision_to_debt_collection.short_description = \"Provision to debt collection system\"\n"

/-- `generate_django_models` — a method of the client whose body is a
single fixed string literal; it reads none of the client state. -/
def generate_django_models (_s : DebtCollectionSetup) : String :=
  djangoModelsTemplate

/-- `generate_django_admin` — likewise a single fixed string literal. -/
def generate_django_admin (_s : DebtCollectionSetup) : String :=
  djangoAdminTemplate

/-- The three network endpoints the script can hit, in driver order. -/
inductive ApiCall where
  | getStatus
  | postBulk
  | postEvents
  deriving DecidableEq

/-- The environment's responses to the (up to) three HTTP calls of one
run of the driver. -/
structure Oracle where
  statusResp : HttpOutcome
  bulkResp : HttpOutcome
  eventsResp : HttpOutcome

/-- Observable result of a completed (non-raising) run of `main`: network
calls issued in order, every line printed, the files written as
(name, content) pairs, and `main`'s boolean return value. -/
structure RunResult where
  calls : List ApiCall
  output : List String
  filesWritten : List (String × String)
  retval : Bool

/-- The two banner lines `main` prints first. -/
def bannerOut : List String :=
  ["🏥 Django Admin - Debt Collection Integration Setup", pyRepeat "=" 55]

/-- The diagnostic lines for a missing `PROVISIONING_API_KEY`. -/
def missingKeyOut : List String :=
  ["❌ PROVISIONING_API_KEY environment variable not set",
   "Please set it with: export PROVISIONING_API_KEY=\x27your-api-key\x27"]

/-- The closing lines printed after both files are written.  The source
writes `"\\n"` inside ordinary (non-raw) Python strings, so these lines
begin with a literal backslash-n, not a newline. -/
def setupCompleteOut : List String :=
  ["✅ Setup complete!",
   "\\nGenerated files:",
   "- django_models_example.py (model definitions)",
   "- django_admin_example.py (admin integration)",
   "\\nNext steps:",
   "1. Copy the model code to your Django models.py",
   "2. Copy the admin code to your Django admin.py",
   "3. Run Django migrations: python manage.py makemigrations && python manage.py migrate",
   "4. Create a Django superuser: python manage.py createsuperuser",
   "5. Install the DebtCollectionService from the documentation",
   "6. Configure your PROVISIONING_API_KEY in Django settings"]

/-- The client `main` constructs once the key check passed:
`DebtCollectionSetup(api_key=api_key)` with the default base URL. -/
def mainSetup (env : Option String) : DebtCollectionSetup :=
  DebtCollectionSetup.init defaultBaseUrl env env

/-- `main()`: check the credential, then run the three network verbs in
fixed order, returning `False` at the first verb that returns `False`,
and finally write the two template files and return `True`.  `env` is
`PROVISIONING_API_KEY`; `now1`, `now2` are the two
`datetime.now().isoformat()` reads inside `send_webhook_test`; `o` holds
the HTTP outcomes.  A `KeyError` escaping a verb escapes `main`. -/
def main (env : Option String) (now1 now2 : String) (o : Oracle) : Except PyExn RunResult :=
  if pyTruthy env = false then
    .ok { calls := []
          output := bannerOut ++ missingKeyOut
          filesWritten := []
          retval := false }
  else
    let s := mainSetup env
    let tc := test_connection s o.statusResp
    if tc.2.2 = false then
      .ok { calls := [.getStatus]
            output := bannerOut ++ ["1. Testing API connection..."] ++ tc.2.1 ++
              ["Please ensure the debt collection API is running and accessible"]
            filesWritten := []
            retval := false }
    else
      let pv := provision_sample_users s o.bulkResp
      match pv.2 with
      | .error e => .error e
      | .ok pres =>
        if pres.2 = false then
          .ok { calls := [.getStatus, .postBulk]
                output := bannerOut ++ ["1. Testing API connection..."] ++ tc.2.1 ++
                  ["\\n2. Provisioning sample users..."] ++ pres.1 ++
                  ["Sample user provisioning failed"]
                filesWritten := []
                retval := false }
        else
          let wh := send_webhook_test s now1 now2 o.eventsResp
          match wh.2 with
          | .error e => .error e
          | .ok wres =>
            if wres.2 = false then
              .ok { calls := [.getStatus, .postBulk, .postEvents]
                    output := bannerOut ++ ["1. Testing API connection..."] ++ tc.2.1 ++
                      ["\\n2. Provisioning sample users..."] ++ pres.1 ++
                      ["\\n3. Testing webhook functionality..."] ++ wres.1 ++
                      ["Webhook test failed"]
                    filesWritten := []
                    retval := false }
            else
              .ok { calls := [.getStatus, .postBulk, .postEvents]
                    output := bannerOut ++ ["1. Testing API connection..."] ++ tc.2.1 ++
                      ["\\n2. Provisioning sample users..."] ++ pres.1 ++
                      ["\\n3. Testing webhook functionality..."] ++ wres.1 ++
                      ["\\n4. Generating Django integration code..."] ++
                      setupCompleteOut
                    filesWritten :=
                      [("django_models_example.py", generate_django_models s),
                       ("django_admin_example.py", generate_django_admin s)]
                    retval := true }

/-- The process exit status: the `__main__` guard runs
`sys.exit(0 if main() else 1)`; an exception escaping `main` also
terminates the interpreter with status 1 (uncaught-traceback exit). -/
def scriptExit (env : Option String) (now1 now2 : String) (o : Oracle) : Nat :=
  match main env now1 now2 o with
  | .ok r => if r.retval then 0 else 1
  | .error _ => 1

/-- The boolean a verb returned, when it returned rather than raised. -/
def verbBool : Except PyExn (List String × Bool) → Option Bool
  | .ok r => some r.2
  | .error _ => none

/-- A flat file-system model: a write shadows earlier bindings. -/
def fsWrite (fs : List (String × String)) (name content : String) : List (String × String) :=
  (name, content) :: fs

/-- Reading returns the most recently written content for the name. -/
def fsRead (fs : List (String × String)) (name : String) : Option String :=
  (fs.find? (fun e => e.1 == name)).map (fun e => e.2)

/-- Appending to a common prefix is injective on strings. -/
theorem string_append_left_cancel (p a b : String) (h : p ++ a = p ++ b) : a = b := by
  have hd : p.data ++ a.data = p.data ++ b.data := by
    simpa [String.data_append] using congrArg String.data h
  cases a
  cases b
  exact congrArg String.mk (List.append_cancel_left hd)

/-- C3: `test_connection` returns `true` exactly when the GET to
`{base}/webhooks/status` produced an HTTP 200 response; every other
status, and every transport-level error (timeout, connection refused,
DNS failure — a raised `requests.RequestException`), yields `false`. -/
theorem C3_test_connection_true_iff_200 (s : DebtCollectionSetup) (o : HttpOutcome) :
    (test_connection s o).2.2 = true ↔ ∃ b t, o = HttpOutcome.response 200 b t := by
  cases o with
  | requestException m => simp [test_connection]
  | response st b t =>
    by_cases h : st = 200 <;> simp [test_connection, h]

/-- C6: with `PROVISIONING_API_KEY` unset, `main` prints the diagnostic,
makes no network call at all, writes nothing, and the process exits with
status 1. -/
theorem C6_missing_key_exits_before_network (now1 now2 : String) (o : Oracle) :
    main none now1 now2 o =
      Except.ok { calls := []
                  output := bannerOut ++ missingKeyOut
                  filesWritten := []
                  retval := false }
  ∧ scriptExit none now1 now2 o = 1 :=
  ⟨rfl, rfl⟩

/-- C7: the two generator methods ignore the client state entirely — any
two calls return the same fixed string — and writing either string to its
file and reading it back returns the in-memory string byte-for-byte. -/
theorem C7_generators_pure_and_roundtrip (s₁ s₂ : DebtCollectionSetup) (fs : List (String × String)) :
    generate_django_models s₁ = generate_django_models s₂
  ∧ generate_django_admin s₁ = generate_django_admin s₂
  ∧ fsRead (fsWrite fs "django_models_example.py" (generate_django_models s₁))
      "django_models_example.py" = some (generate_django_models s₁)
  ∧ fsRead (fsWrite fs "django_admin_example.py" (generate_django_admin s₁))
      "django_admin_example.py" = some (generate_django_admin s₁) := by
  refine ⟨rfl, rfl, ?_, ?_⟩ <;> simp [fsRead, fsWrite]

/-- C8: the locally generated event id is the literal `"test-"` followed
by the ISO-8601 timestamp read from the clock, and two builds whose
timestamp reads render differently — as microsecond-precision
`isoformat()` strings of instants more than a millisecond apart do —
have distinct event ids. -/
theorem C8_event_id_format_and_distinct (n₁ n₂ m₁ m₂ : String) (h : n₁ ≠ m₁) :
    (build_test_event n₁ n₂).event_id = "test-" ++ n₁
  ∧ (build_test_event n₁ n₂).event_id ≠ (build_test_event m₁ m₂).event_id := by
  refine ⟨rfl, fun hc => h ?_⟩
  exact string_append_left_cancel "test-" n₁ m₁ hc

/-- Witness for C8 at two concrete clock reads 2 ms apart. -/
theorem C8_witness :
    ("2024-01-01T00:00:00.000000" : String) ≠ "2024-01-01T00:00:00.002000"
  ∧ ((build_test_event "2024-01-01T00:00:00.000000" "2024-01-01T00:00:00.000005").event_id
      = "test-" ++ "2024-01-01T00:00:00.000000"
  ∧ (build_test_event "2024-01-01T00:00:00.000000" "2024-01-01T00:00:00.000005").event_id
      ≠ (build_test_event "2024-01-01T00:00:00.002000" "2024-01-01T00:00:00.002005").event_id) :=
  ⟨by decide,
   C8_event_id_format_and_distinct "2024-01-01T00:00:00.000000" "2024-01-01T00:00:00.000005"
     "2024-01-01T00:00:00.002000" "2024-01-01T00:00:00.002005" (by decide)⟩

/-- C9: constructed with `api_key=None` and the environment variable
unset, the client still constructs, its Authorization header is the
literal string `Bearer None`, and every verb sends exactly those headers
to the network layer. -/
theorem C9_bearer_none_headers :
    (DebtCollectionSetup.init defaultBaseUrl none none).headers =
      [("Authorization", "Bearer None"), ("Content-Type", "application/json")]
  ∧ (∀ o, (test_connection (DebtCollectionSetup.init defaultBaseUrl none none) o).1.headers =
      [("Authorization", "Bearer None"), ("Content-Type", "application/json")])
  ∧ (∀ o, (provision_sample_users (DebtCollectionSetup.init defaultBaseUrl none none) o).1.headers =
      [("Authorization", "Bearer None"), ("Content-Type", "application/json")])
  ∧ (∀ n₁ n₂ o, (send_webhook_test (DebtCollectionSetup.init defaultBaseUrl none none) n₁ n₂ o).1.headers =
      [("Authorization", "Bearer None"), ("Content-Type", "application/json")]) :=
  ⟨rfl, fun _ => rfl, fun _ => rfl, fun _ _ _ => rfl⟩

/-- C10: within one built event the id suffix and the timestamp field
come from two separate clock reads: the event built from reads `n₁`, `n₂`
has id `"test-" ++ n₁` and timestamp `n₂`, and a concrete pair of
distinct reads yields an event whose id does not embed its own
timestamp. -/
theorem C10_two_separate_clock_reads :
    (∀ n₁ n₂ : String,
      (build_test_event n₁ n₂).event_id = "test-" ++ n₁
      ∧ (build_test_event n₁ n₂).timestamp = n₂)
  ∧ (build_test_event "2024-01-01T00:00:00.000000" "2024-01-01T00:00:00.000017").event_id ≠
      "test-" ++ (build_test_event "2024-01-01T00:00:00.000000" "2024-01-01T00:00:00.000017").timestamp :=
  ⟨fun _ _ => ⟨rfl, rfl⟩, by decide⟩

/-- C5: on HTTP 200, `provision_sample_users` returns `true` even when
the decoded body carries a truthy `errors` field alongside
`success_count`: the `error_count` is printed only as a warning line and
partial success is still reported to the driver as overall success. -/
theorem C5_partial_success_reported_true (s : DebtCollectionSetup) (b : Json) (t : String) (sc ec : Json)
    (h₁ : b.get? "success_count" = some sc)
    (h₂ : (b.getd "errors").truthy = true)
    (h₃ : b.get? "error_count" = some ec) :
    (provision_sample_users s (HttpOutcome.response 200 b t)).2 =
      Except.ok (["✅ Successfully provisioned " ++ sc.pyStr ++ " sample users",
                  "⚠️  " ++ ec.pyStr ++ " errors occurred"], true) := by
  simp [provision_sample_users, h₁, h₂, h₃]

/-- Witness for C5: a 200 body with `success_count` 2, one error entry
and `error_count` 1 still yields `true`, with the warning line. -/
theorem C5_witness :
    (provision_sample_users (mainSetup (some "key"))
        (HttpOutcome.response 200
          (Json.obj [("success_count", Json.num 2),
                     ("errors", Json.arr [Json.str "boom"]),
                     ("error_count", Json.num 1)]) "")).2 =
      Except.ok (["✅ Successfully provisioned " ++ (Json.num 2).pyStr ++ " sample users",
                  "⚠️  " ++ (Json.num 1).pyStr ++ " errors occurred"], true) :=
  C5_partial_success_reported_true (mainSetup (some "key"))
    (Json.obj [("success_count", Json.num 2),
               ("errors", Json.arr [Json.str "boom"]),
               ("error_count", Json.num 1)]) "" (Json.num 2) (Json.num 1) rfl rfl rfl

/-- C2 counterexample: on an HTTP 200 whose decoded body lacks
`success_count`, `provision_sample_users` does not return `false` — it
raises a `KeyError` that escapes the verb (only
`requests.RequestException` is caught). -/
theorem C2_counterexample :
    (provision_sample_users (mainSetup (some "key")) (HttpOutcome.response 200 (Json.obj []) "")).2 =
      Except.error (PyExn.keyError "success_count") := rfl

/-- C2 amended: each verb converts transport errors
(`requests.RequestException`) and non-200 statuses into a printed message
and a `false` return; but a 200 response whose decoded body lacks an
expected field — `success_count` for provisioning, `event_id` for the
webhook, `error_count` when `errors` is truthy — raises an uncaught
`KeyError` that escapes the verb instead of returning `false`. -/
theorem C2_error_policy (s : DebtCollectionSetup) (m : String)
    (st₁ st₂ st₃ : Nat) (b₁ b₂ b₃ : Json) (t₁ t₂ t₃ n₁ n₂ : String) (sc : Json)
    (h₁ : st₁ ≠ 200) (h₂ : st₂ ≠ 200) (h₃ : st₃ ≠ 200)
    (hb₁ : b₁.get? "success_count" = none)
    (hb₂ : b₂.get? "event_id" = none)
    (hsc : b₃.get? "success_count" = some sc)
    (hb₃ : (b₃.getd "errors").truthy = true)
    (hb₄ : b₃.get? "error_count" = none) :
    (test_connection s (HttpOutcome.requestException m)).2.2 = false
  ∧ (test_connection s (HttpOutcome.response st₁ b₁ t₁)).2.2 = false
  ∧ (provision_sample_users s (HttpOutcome.requestException m)).2 =
      Except.ok (["❌ Provisioning error: " ++ m], false)
  ∧ (provision_sample_users s (HttpOutcome.response st₂ b₂ t₂)).2 =
      Except.ok (["❌ Provisioning failed with status: " ++ toString st₂, t₂], false)
  ∧ (send_webhook_test s n₁ n₂ (HttpOutcome.requestException m)).2 =
      Except.ok (["❌ Webhook test error: " ++ m], false)
  ∧ (send_webhook_test s n₁ n₂ (HttpOutcome.response st₃ b₃ t₃)).2 =
      Except.ok (["❌ Webhook test failed with status: " ++ toString st₃], false)
  ∧ (provision_sample_users s (HttpOutcome.response 200 b₁ t₁)).2 =
      Except.error (PyExn.keyError "success_count")
  ∧ (send_webhook_test s n₁ n₂ (HttpOutcome.response 200 b₂ t₂)).2 =
      Except.error (PyExn.keyError "event_id")
  ∧ (provision_sample_users s (HttpOutcome.response 200 b₃ t₃)).2 =
      Except.error (PyExn.keyError "error_count") := by
  refine ⟨rfl, ?_, rfl, ?_, rfl, ?_, ?_, ?_, ?_⟩
  · simp [test_connection, h₁]
  · simp [provision_sample_users, h₂]
  · simp [send_webhook_test, h₃]
  · simp [provision_sample_users, hb₁]
  · simp [send_webhook_test, hb₂]
  · simp [provision_sample_users, hsc, hb₃, hb₄]

/-- Witness for C2's amended error policy at concrete responses: a raised
exception message, 503 statuses, and 200 bodies with the relevant fields
absent. -/
theorem C2_witness :
    (test_connection (mainSetup (some "key")) (HttpOutcome.requestException "timed out")).2.2 = false
  ∧ (test_connection (mainSetup (some "key")) (HttpOutcome.response 503 (Json.obj []) "")).2.2 = false
  ∧ (provision_sample_users (mainSetup (some "key")) (HttpOutcome.requestException "timed out")).2 =
      Except.ok (["❌ Provisioning error: " ++ "timed out"], false)
  ∧ (provision_sample_users (mainSetup (some "key")) (HttpOutcome.response 503 (Json.obj []) "oops")).2 =
      Except.ok (["❌ Provisioning failed with status: " ++ toString 503, "oops"], false)
  ∧ (send_webhook_test (mainSetup (some "key")) "t" "u" (HttpOutcome.requestException "timed out")).2 =
      Except.ok (["❌ Webhook test error: " ++ "timed out"], false)
  ∧ (send_webhook_test (mainSetup (some "key")) "t" "u"
        (HttpOutcome.response 503 (Json.obj [("success_count", Json.num 2), ("errors", Json.arr [Json.str "e"])]) "")).2 =
      Except.ok (["❌ Webhook test failed with status: " ++ toString 503], false)
  ∧ (provision_sample_users (mainSetup (some "key")) (HttpOutcome.response 200 (Json.obj []) "")).2 =
      Except.error (PyExn.keyError "success_count")
  ∧ (send_webhook_test (mainSetup (some "key")) "t" "u" (HttpOutcome.response 200 (Json.obj []) "oops")).2 =
      Except.error (PyExn.keyError "event_id")
  ∧ (provision_sample_users (mainSetup (some "key"))
        (HttpOutcome.response 200 (Json.obj [("success_count", Json.num 2), ("errors", Json.arr [Json.str "e"])]) "")).2 =
      Except.error (PyExn.keyError "error_count") :=
  C2_error_policy (mainSetup (some "key")) "timed out" 503 503 503
    (Json.obj []) (Json.obj [])
    (Json.obj [("success_count", Json.num 2), ("errors", Json.arr [Json.str "e"])])
    "" "oops" "" "t" "u" (Json.num 2)
    (by decide) (by decide) (by decide) rfl rfl rfl rfl rfl

/-- C4 counterexample: `provision_sample_users` takes no record-sequence
input; at a concrete call the POSTed payload is the fixed two-element
sample list, which is not the empty sequence — the function cannot be
called with an empty sequence at all. -/
theorem C4_counterexample :
    (provision_sample_users (mainSetup (some "key"))
        (HttpOutcome.response 200 (Json.obj [("success_count", Json.num 0)]) "")).1.payload =
      some (Json.arr (sample_users.map UserRecord.toJson))
  ∧ sample_users.length = 2
  ∧ Json.arr (sample_users.map UserRecord.toJson) ≠ Json.arr [] := by
  refine ⟨rfl, rfl, ?_⟩
  simp [sample_users]

/-- C4 amended: `provision_sample_users` has no records parameter — for
every client state and HTTP outcome it unconditionally issues the POST to
`{base}/provisioning/users/bulk` (no local short-circuit) whose payload
is the fixed two-record sample list, and on HTTP 200 with
`success_count` present (and no truthy `errors`) it returns `true`,
reporting the server's `success_count`. -/
theorem C4_unconditional_fixed_post (s : DebtCollectionSetup) (o : HttpOutcome)
    (b : Json) (t : String) (sc : Json)
    (hb : b.get? "success_count" = some sc)
    (he : (b.getd "errors").truthy = false) :
    (provision_sample_users s o).1 =
      { method := "POST"
        url := s.api_base_url ++ "/provisioning/users/bulk"
        payload := some (Json.arr (sample_users.map UserRecord.toJson))
        headers := s.headers
        timeout := 30 }
  ∧ (provision_sample_users s (HttpOutcome.response 200 b t)).2 =
      Except.ok (["✅ Successfully provisioned " ++ sc.pyStr ++ " sample users"], true) := by
  refine ⟨rfl, ?_⟩
  simp [provision_sample_users, hb, he]

/-- Witness for C4's amended statement: the server acknowledges 2 users. -/
theorem C4_witness :
    (provision_sample_users (mainSetup (some "key"))
        (HttpOutcome.response 200 (Json.obj [("success_count", Json.num 2)]) "")).1 =
      { method := "POST"
        url := (mainSetup (some "key")).api_base_url ++ "/provisioning/users/bulk"
        payload := some (Json.arr (sample_users.map UserRecord.toJson))
        headers := (mainSetup (some "key")).headers
        timeout := 30 }
  ∧ (provision_sample_users (mainSetup (some "key"))
        (HttpOutcome.response 200 (Json.obj [("success_count", Json.num 2)]) "")).2 =
      Except.ok (["✅ Successfully provisioned " ++ (Json.num 2).pyStr ++ " sample users"], true) :=
  C4_unconditional_fixed_post (mainSetup (some "key"))
    (HttpOutcome.response 200 (Json.obj [("success_count", Json.num 2)]) "")
    (Json.obj [("success_count", Json.num 2)]) "" (Json.num 2) rfl rfl

/-- A non-empty key string is truthy. -/
theorem pyTruthy_some {k : String} (hk : k ≠ "") : pyTruthy (some k) = true := by
  simp [pyTruthy, hk]

/-- A verb whose returned boolean is observed returned normally. -/
theorem verbBool_eq_some {x : Except PyExn (List String × Bool)} {b : Bool}
    (h : verbBool x = some b) : ∃ out, x = Except.ok (out, b) := by
  cases x with
  | error e => simp [verbBool] at h
  | ok r =>
    simp [verbBool] at h
    exact ⟨r.1, by simp [← h]⟩

/-- C1: driver sequencing.  A missing credential ends the run before any
network call with exit status 1; a `False` from `test_connection` ends it
after only the status GET; a `False` from `provision_sample_users` after
the GET and the bulk POST; a `False` from `send_webhook_test` after all
three calls but before any file is written — each with exit status 1.
When all steps succeed the two template files are written and the process
exits 0. -/
theorem C1_driver_sequencing
    (e₁ : Option String) (n₁ n₂ : String) (o₁ o₂ o₃ o₄ o₅ : Oracle) (k : String)
    (hk : k ≠ "")
    (h₁ : pyTruthy e₁ = false)
    (h₂ : (test_connection (mainSetup (some k)) o₂.statusResp).2.2 = false)
    (h₃t : (test_connection (mainSetup (some k)) o₃.statusResp).2.2 = true)
    (h₃p : verbBool (provision_sample_users (mainSetup (some k)) o₃.bulkResp).2 = some false)
    (h₄t : (test_connection (mainSetup (some k)) o₄.statusResp).2.2 = true)
    (h₄p : verbBool (provision_sample_users (mainSetup (some k)) o₄.bulkResp).2 = some true)
    (h₄w : verbBool (send_webhook_test (mainSetup (some k)) n₁ n₂ o₄.eventsResp).2 = some false)
    (h₅t : (test_connection (mainSetup (some k)) o₅.statusResp).2.2 = true)
    (h₅p : verbBool (provision_sample_users (mainSetup (some k)) o₅.bulkResp).2 = some true)
    (h₅w : verbBool (send_webhook_test (mainSetup (some k)) n₁ n₂ o₅.eventsResp).2 = some true) :
    ((∃ r, main e₁ n₁ n₂ o₁ = Except.ok r
        ∧ r.calls = [] ∧ r.filesWritten = [] ∧ r.retval = false)
      ∧ scriptExit e₁ n₁ n₂ o₁ = 1)
  ∧ ((∃ r, main (some k) n₁ n₂ o₂ = Except.ok r
        ∧ r.calls = [ApiCall.getStatus] ∧ r.filesWritten = [] ∧ r.retval = false)
      ∧ scriptExit (some k) n₁ n₂ o₂ = 1)
  ∧ ((∃ r, main (some k) n₁ n₂ o₃ = Except.ok r
        ∧ r.calls = [ApiCall.getStatus, ApiCall.postBulk] ∧ r.filesWritten = [] ∧ r.retval = false)
      ∧ scriptExit (some k) n₁ n₂ o₃ = 1)
  ∧ ((∃ r, main (some k) n₁ n₂ o₄ = Except.ok r
        ∧ r.calls = [ApiCall.getStatus, ApiCall.postBulk, ApiCall.postEvents]
        ∧ r.filesWritten = [] ∧ r.retval = false)
      ∧ scriptExit (some k) n₁ n₂ o₄ = 1)
  ∧ ((∃ r, main (some k) n₁ n₂ o₅ = Except.ok r
        ∧ r.calls = [ApiCall.getStatus, ApiCall.postBulk, ApiCall.postEvents]
        ∧ r.filesWritten =
            [("django_models_example.py", generate_django_models (mainSetup (some k))),
             ("django_admin_example.py", generate_django_admin (mainSetup (some k)))]
        ∧ r.retval = true)
      ∧ scriptExit (some k) n₁ n₂ o₅ = 0) := by
  obtain ⟨out₃, hpv₃⟩ := verbBool_eq_some h₃p
  obtain ⟨out₄p, hpv₄⟩ := verbBool_eq_some h₄p
  obtain ⟨out₄w, hwh₄⟩ := verbBool_eq_some h₄w
  obtain ⟨out₅p, hpv₅⟩ := verbBool_eq_some h₅p
  obtain ⟨out₅w, hwh₅⟩ := verbBool_eq_some h₅w
  have hm₁ : main e₁ n₁ n₂ o₁ = Except.ok
      { calls := []
        output := bannerOut ++ missingKeyOut
        filesWritten := []
        retval := false } := by
    simp [main, h₁]
  have hm₂ : main (some k) n₁ n₂ o₂ = Except.ok
      { calls := [ApiCall.getStatus]
        output := bannerOut ++ ["1. Testing API connection..."] ++
          (test_connection (mainSetup (some k)) o₂.statusResp).2.1 ++
          ["Please ensure the debt collection API is running and accessible"]
        filesWritten := []
        retval := false } := by
    simp [main, pyTruthy_some hk, h₂]
  have hm₃ : main (some k) n₁ n₂ o₃ = Except.ok
      { calls := [ApiCall.getStatus, ApiCall.postBulk]
        output := bannerOut ++ ["1. Testing API connection..."] ++
          (test_connection (mainSetup (some k)) o₃.statusResp).2.1 ++
          ["\\n2. Provisioning sample users..."] ++ out₃ ++
          ["Sample user provisioning failed"]
        filesWritten := []
        retval := false } := by
    simp [main, pyTruthy_some hk, h₃t, hpv₃]
  have hm₄ : main (some k) n₁ n₂ o₄ = Except.ok
      { calls := [ApiCall.getStatus, ApiCall.postBulk, ApiCall.postEvents]
        output := bannerOut ++ ["1. Testing API connection..."] ++
          (test_connection (mainSetup (some k)) o₄.statusResp).2.1 ++
          ["\\n2. Provisioning sample users..."] ++ out₄p ++
          ["\\n3. Testing webhook functionality..."] ++ out₄w ++
          ["Webhook test failed"]
        filesWritten := []
        retval := false } := by
    simp [main, pyTruthy_some hk, h₄t, hpv₄, hwh₄]
  have hm₅ : main (some k) n₁ n₂ o₅ = Except.ok
      { calls := [ApiCall.getStatus, ApiCall.postBulk, ApiCall.postEvents]
        output := bannerOut ++ ["1. Testing API connection..."] ++
          (test_connection (mainSetup (some k)) o₅.statusResp).2.1 ++
          ["\\n2. Provisioning sample users..."] ++ out₅p ++
          ["\\n3. Testing webhook functionality..."] ++ out₅w ++
          ["\\n4. Generating Django integration code..."] ++
          setupCompleteOut
        filesWritten :=
          [("django_models_example.py", generate_django_models (mainSetup (some k))),
           ("django_admin_example.py", generate_django_admin (mainSetup (some k)))]
        retval := true } := by
    simp [main, pyTruthy_some hk, h₅t, hpv₅, hwh₅]
  refine ⟨⟨⟨_, hm₁, rfl, rfl, rfl⟩, ?_⟩,
          ⟨⟨_, hm₂, rfl, rfl, rfl⟩, ?_⟩,
          ⟨⟨_, hm₃, rfl, rfl, rfl⟩, ?_⟩,
          ⟨⟨_, hm₄, rfl, rfl, rfl⟩, ?_⟩,
          ⟨⟨_, hm₅, rfl, rfl, rfl⟩, ?_⟩⟩ <;>
    simp [scriptExit, hm₁, hm₂, hm₃, hm₄, hm₅]

/-- An HTTP outcome standing for a raised transport exception. -/
def oraExn : HttpOutcome := HttpOutcome.requestException "connection refused"

/-- A 200 response with an empty JSON object body. -/
def ora200 : HttpOutcome := HttpOutcome.response 200 (Json.obj []) ""

/-- A 200 bulk-provision response acknowledging both sample users. -/
def oraBulkOk : HttpOutcome :=
  HttpOutcome.response 200 (Json.obj [("success_count", Json.num 2)]) ""

/-- A 200 webhook response echoing an event id. -/
def oraEventOk : HttpOutcome :=
  HttpOutcome.response 200 (Json.obj [("event_id", Json.str "test-2024-01-01T00:00:00")]) ""

/-- Witness for C1 at five concrete runs: no key; health 503; provision
500; webhook transport error; all steps succeeding. -/
theorem C1_witness :
    scriptExit none "t" "u" ⟨oraExn, oraExn, oraExn⟩ = 1
  ∧ scriptExit (some "key") "t" "u" ⟨HttpOutcome.response 503 (Json.obj []) "", oraExn, oraExn⟩ = 1
  ∧ scriptExit (some "key") "t" "u" ⟨ora200, HttpOutcome.response 500 (Json.obj []) "err", oraExn⟩ = 1
  ∧ scriptExit (some "key") "t" "u" ⟨ora200, oraBulkOk, oraExn⟩ = 1
  ∧ scriptExit (some "key") "t" "u" ⟨ora200, oraBulkOk, oraEventOk⟩ = 0 := by
  have h := C1_driver_sequencing none "t" "u"
    ⟨oraExn, oraExn, oraExn⟩
    ⟨HttpOutcome.response 503 (Json.obj []) "", oraExn, oraExn⟩
    ⟨ora200, HttpOutcome.response 500 (Json.obj []) "err", oraExn⟩
    ⟨ora200, oraBulkOk, oraExn⟩
    ⟨ora200, oraBulkOk, oraEventOk⟩
    "key" (by decide) rfl rfl rfl rfl rfl rfl rfl rfl rfl rfl
  exact ⟨h.1.2, h.2.1.2, h.2.2.1.2, h.2.2.2.1.2, h.2.2.2.2.2⟩

end DjangoSetup
